import Mathlib

/-!
Shallow embedding of the hospital-management application
(`hospital_management/application/controllers.py` and `models.py`).

The relational store is a record of row lists; every route handler that the
claims mention becomes a pure function from a `DB` (plus its form inputs and
the session's user id) to an `Outcome` and a successor `DB`.  Password
hashing is kept abstract: operations that hash take a `hash` function and
`login` takes a `verify` function, standing for werkzeug's
`generate_password_hash` / `check_password_hash`.
-/

namespace HospitalMS

/-- A calendar date as produced by parsing a form date string. -/
structure Date where
  year : Nat
  month : Nat
  day : Nat
deriving DecidableEq, Repr

/-- Gregorian leap-year rule used by the standard library's date validation. -/
def isLeapYear (y : Nat) : Bool :=
  y % 4 == 0 && (y % 100 != 0 || y % 400 == 0)

/-- Number of days in a month of a given year. -/
def daysInMonth (y m : Nat) : Nat :=
  if m == 2 then (if isLeapYear y then 29 else 28)
  else if m == 4 || m == 6 || m == 9 || m == 11 then 30
  else 31

/-- Value of a list of decimal digit characters. -/
def digitsToNat (cs : List Char) : Nat :=
  cs.foldl (fun n c => 10 * n + (c.toNat - 48)) 0

/-- Split a character list on the dash character. -/
def splitDash : List Char → List (List Char)
  | [] => [[]]
  | c :: cs =>
    if c = '-' then [] :: splitDash cs
    else
      match splitDash cs with
      | [] => [[c]]
      | g :: gs => (c :: g) :: gs

/-- Year field of the `%Y-%m-%d` format: exactly four digits. -/
def parseYear (cs : List Char) : Option Nat :=
  if cs.length == 4 && cs.all Char.isDigit then some (digitsToNat cs) else none

/-- Month field of the format: one digit 1-9, or two digits with value 1..12. -/
def parseMonth (cs : List Char) : Option Nat :=
  match cs with
  | [c] => if c.isDigit && c ≠ '0' then some (digitsToNat [c]) else none
  | [c1, c2] =>
    if c1.isDigit && c2.isDigit then
      let v := digitsToNat [c1, c2]
      if 1 ≤ v && v ≤ 12 then some v else none
    else none
  | _ => none

/-- Day field of the format: one digit 1-9, possibly space padded, or two
digits with value 1..31. -/
def parseDay (cs : List Char) : Option Nat :=
  match cs with
  | [c] => if c.isDigit && c ≠ '0' then some (digitsToNat [c]) else none
  | [' ', c] => if c.isDigit && c ≠ '0' then some (digitsToNat [c]) else none
  | [c1, c2] =>
    if c1.isDigit && c2.isDigit then
      let v := digitsToNat [c1, c2]
      if 1 ≤ v && v ≤ 31 then some v else none
    else none
  | _ => none

/-- Models `datetime.strptime(date_str, '%Y-%m-%d').date()`: a four-digit
year, one-or-two-digit month and day separated by dashes, nothing left over,
and calendar validation (day against the month's length, year at least 1);
any failure raises, i.e. yields `none`. -/
def parseDate (s : String) : Option Date :=
  match splitDash s.data with
  | [ys, ms, ds] =>
    match parseYear ys, parseMonth ms, parseDay ds with
    | some y, some m, some d =>
      if 1 ≤ y && d ≤ daysInMonth y m then some ⟨y, m, d⟩ else none
    | _, _, _ => none
  | _ => none

/-- Row of the `admin` table. -/
structure AdminRow where
  id : Nat
  username : String
  password_hash : String
deriving DecidableEq, Repr

/-- Row of the `department` table. -/
structure DepartmentRow where
  id : Nat
  name : String
deriving DecidableEq, Repr

/-- Row of the `doctor` table. -/
structure DoctorRow where
  id : Nat
  username : String
  password_hash : String
  full_name : String
  email : Option String
  experience_years : Nat
  department_id : Nat
deriving DecidableEq, Repr

/-- Row of the `patient` table. -/
structure PatientRow where
  id : Nat
  username : String
  password_hash : String
  full_name : Option String
  contact : Option String
deriving DecidableEq, Repr

/-- Row of the `appointment` table; `status` holds "Booked", "Completed" or
"Cancelled". -/
structure ApptRow where
  id : Nat
  appointment_date : Date
  time_slot : String
  status : String
  patient_id : Nat
  doctor_id : Nat
deriving DecidableEq, Repr

/-- Row of the `treatment` table. -/
structure TreatmentRow where
  id : Nat
  diagnosis : String
  prescription : String
  medicines : String
  appointment_id : Nat
deriving DecidableEq, Repr

/-- Row of the `doctor_availability` table. -/
structure AvailabilityRow where
  id : Nat
  date : Date
  time_slot : String
  is_available : Bool
  doctor_id : Nat
deriving DecidableEq, Repr

/-- The relational store: one list per table. -/
structure DB where
  admins : List AdminRow
  departments : List DepartmentRow
  doctors : List DoctorRow
  patients : List PatientRow
  appointments : List ApptRow
  treatments : List TreatmentRow
  availabilities : List AvailabilityRow
deriving DecidableEq, Repr

/-- Observable outcome of a handler: success commit, duplicate conflict,
unparseable input, 404 on a missing id, a denial (redirect without the
requested mutation), or a storage failure (an unhandled database error at
commit, rolling the transaction back). -/
inductive Outcome where
  | ok
  | conflict
  | invalidInput
  | notFound
  | denied
  | storageFailure
deriving DecidableEq, Repr

/-- Next autoincrement primary key for a table, as SQLite assigns row ids:
one more than the largest existing id. -/
def nextId (ids : List Nat) : Nat :=
  ids.foldr max 0 + 1

/-- One table probe of the login flow: fetch the first row with the given
username, and if its stored hash verifies return that principal, else
nothing. -/
def checkTable {α : Type} (rows : List α) (key hsh : α → String)
    (mk : α → Nat × String) (verify : String → String → Bool)
    (u p : String) : Option (Nat × String) :=
  match rows.find? (fun a => key a == u) with
  | some a => if verify (hsh a) p then some (mk a) else none
  | none => none

/-- `login` (POST branch): probe the Admin table, then the Doctor table,
then the Patient table; the first probe that both finds the username and
verifies the password yields the session's (user_id, role); otherwise the
credentials are rejected. -/
def login (db : DB) (verify : String → String → Bool) (u p : String) :
    Option (Nat × String) :=
  match checkTable db.admins (fun a => a.username) (fun a => a.password_hash)
      (fun a => (a.id, "admin")) verify u p with
  | some r => some r
  | none =>
    match checkTable db.doctors (fun d => d.username) (fun d => d.password_hash)
        (fun d => (d.id, "doctor")) verify u p with
    | some r => some r
    | none =>
      checkTable db.patients (fun q => q.username) (fun q => q.password_hash)
        (fun q => (q.id, "patient")) verify u p

/-- A principal row tagged with its role, in the priority order the spec
names: all admins, then all doctors, then all patients.  Components are
(id, role, username, password hash). -/
def roleRows (db : DB) : List (Nat × String × String × String) :=
  db.admins.map (fun a => (a.id, "admin", a.username, a.password_hash))
    ++ db.doctors.map (fun d => (d.id, "doctor", d.username, d.password_hash))
    ++ db.patients.map (fun q => (q.id, "patient", q.username, q.password_hash))

/-- Modelled from the spec's words for `authenticate`: return the
(principal_id, role) of the first row, in Admin-Doctor-Patient priority
order, whose username matches and whose password hash verifies; fail when no
table yields a verified match. -/
def authSpec (db : DB) (verify : String → String → Bool) (u p : String) :
    Option (Nat × String) :=
  ((roleRows db).find? (fun r => r.2.2.1 == u && verify r.2.2.2 p)).map
    (fun r => (r.1, r.2.1))

/-- `register` (POST branch): if any Patient, Doctor or Admin row already
has the username, flash "Username taken" and create nothing; otherwise add a
new Patient with the hashed password. -/
def register (db : DB) (hash : String → String) (username password : String) :
    Outcome × DB :=
  if db.patients.any (fun q => q.username == username)
      || db.doctors.any (fun d => d.username == username)
      || db.admins.any (fun a => a.username == username) then
    (Outcome.conflict, db)
  else
    (Outcome.ok,
      { db with patients := db.patients ++
          [{ id := nextId (db.patients.map (fun q => q.id)),
             username := username, password_hash := hash password,
             full_name := none, contact := none }] })

/-- Username derivation in `create_doctor`:
`fullname.lower().replace(" ", ".")`, i.e. each character lowercased and
each space turned into a dot. -/
def deriveUsername (fullname : String) : String :=
  ⟨fullname.data.map (fun c => if c = ' ' then '.' else c.toLower)⟩

/-- `create_doctor` (POST branch): derive the username from the full name;
if a Doctor row with that username exists, conflict and change nothing; else
get-or-create the Department named by the specialization and add a Doctor
with the default password "doctor123". -/
def create_doctor (db : DB) (hash : String → String)
    (fullname specialization : String) (experience : Nat) : Outcome × DB :=
  if db.doctors.any (fun d => d.username == deriveUsername fullname) then
    (Outcome.conflict, db)
  else
    match db.departments.find? (fun dp => dp.name == specialization) with
    | some dept =>
      (Outcome.ok,
        { db with doctors := db.doctors ++
            [{ id := nextId (db.doctors.map (fun d => d.id)),
               username := deriveUsername fullname,
               password_hash := hash "doctor123",
               full_name := fullname, email := none,
               experience_years := experience, department_id := dept.id }] })
    | none =>
      (Outcome.ok,
        { db with
            departments := db.departments ++
              [{ id := nextId (db.departments.map (fun dp => dp.id)),
                 name := specialization }],
            doctors := db.doctors ++
              [{ id := nextId (db.doctors.map (fun d => d.id)),
                 username := deriveUsername fullname,
                 password_hash := hash "doctor123",
                 full_name := fullname, email := none,
                 experience_years := experience,
                 department_id :=
                   nextId (db.departments.map (fun dp => dp.id)) }] })

/-- `delete_doctor`: 404 when the id is missing.  `session.delete(doctor)`
followed by `commit` behaves per the declared relationships: the
DoctorAvailability rows cascade (`cascade="all, delete-orphan"`), but
`Doctor.appointments` has no delete cascade, so the unit of work nulls the
children's `doctor_id` — a `nullable=False` column — and when the doctor
owns any Appointment row the flush raises IntegrityError and the whole
transaction rolls back, leaving the store unchanged.  Only a doctor with no
Appointment rows is actually deleted. -/
def delete_doctor (db : DB) (did : Nat) : Outcome × DB :=
  match db.doctors.find? (fun d => d.id == did) with
  | none => (Outcome.notFound, db)
  | some _ =>
    if db.appointments.any (fun a => a.doctor_id == did) then
      (Outcome.storageFailure, db)
    else
      (Outcome.ok,
        { db with
            doctors := db.doctors.filter (fun d => d.id != did),
            availabilities := db.availabilities.filter (fun a => a.doctor_id != did) })

/-- `blacklist_doctor_view`: 404 when the id is missing; otherwise deletes
the fetched Doctor row exactly as the delete route does — the same
availability cascade and the same IntegrityError rollback when the doctor
owns Appointment rows. -/
def blacklist_doctor_view (db : DB) (did : Nat) : Outcome × DB :=
  match db.doctors.find? (fun d => d.id == did) with
  | none => (Outcome.notFound, db)
  | some _ =>
    if db.appointments.any (fun a => a.doctor_id == did) then
      (Outcome.storageFailure, db)
    else
      (Outcome.ok,
        { db with
            doctors := db.doctors.filter (fun d => d.id != did),
            availabilities := db.availabilities.filter (fun a => a.doctor_id != did) })

/-- `book_appointment` (POST branch): 404 when the doctor id is missing;
parse the date string, flashing "Invalid date" on failure; reject with
"Slot already booked" when any Appointment row — whatever its status —
matches the (doctor, date, slot) triple; else add an Appointment with
status "Booked" for the session's patient. -/
def book_appointment (db : DB) (sessionUserId did : Nat)
    (date_str time_slot : String) : Outcome × DB :=
  match db.doctors.find? (fun d => d.id == did) with
  | none => (Outcome.notFound, db)
  | some doctor =>
    match parseDate date_str with
    | none => (Outcome.invalidInput, db)
    | some appt_date =>
      if db.appointments.any (fun a =>
          a.doctor_id == doctor.id && a.appointment_date == appt_date
            && a.time_slot == time_slot) then
        (Outcome.conflict, db)
      else
        (Outcome.ok,
          { db with appointments := db.appointments ++
              [{ id := nextId (db.appointments.map (fun a => a.id)),
                 appointment_date := appt_date, time_slot := time_slot,
                 status := "Booked", patient_id := sessionUserId,
                 doctor_id := doctor.id }] })

/-- Patient `appointment_action`: 404 when the appointment id is missing; a
bare redirect when the session's patient does not own it; set status to
"Cancelled" when the action is "cancel" and the status is "Booked"; flash
"Cannot cancel" otherwise. -/
def patient_appointment_action (db : DB) (sessionUserId aid : Nat)
    (action : String) : Outcome × DB :=
  match db.appointments.find? (fun a => a.id == aid) with
  | none => (Outcome.notFound, db)
  | some appt =>
    if appt.patient_id != sessionUserId then (Outcome.denied, db)
    else if action == "cancel" && appt.status == "Booked" then
      (Outcome.ok,
        { db with appointments := db.appointments.map (fun a =>
            if a.id == aid then { a with status := "Cancelled" } else a) })
    else (Outcome.denied, db)

/-- Doctor `appointment_action`: 404 when the appointment id is missing;
set status to "Completed" on action "complete" and to "Cancelled" on action
"cancel", unconditionally on the prior status; any other action commits no
change. -/
def doctor_appointment_action (db : DB) (aid : Nat) (action : String) :
    Outcome × DB :=
  match db.appointments.find? (fun a => a.id == aid) with
  | none => (Outcome.notFound, db)
  | some _ =>
    if action == "complete" then
      (Outcome.ok,
        { db with appointments := db.appointments.map (fun a =>
            if a.id == aid then { a with status := "Completed" } else a) })
    else if action == "cancel" then
      (Outcome.ok,
        { db with appointments := db.appointments.map (fun a =>
            if a.id == aid then { a with status := "Cancelled" } else a) })
    else (Outcome.ok, db)

/-- `update_history` (POST branch), the record-treatment operation: 404 when
the appointment id is missing; fetch the Treatment row for the appointment,
creating one when absent; overwrite its diagnosis, prescription and
medicines; and set the appointment's status to "Completed". -/
def update_history (db : DB) (aid : Nat)
    (diagnosis prescription medicines : String) : Outcome × DB :=
  match db.appointments.find? (fun a => a.id == aid) with
  | none => (Outcome.notFound, db)
  | some appt =>
    match db.treatments.find? (fun t => t.appointment_id == appt.id) with
    | some t =>
      (Outcome.ok,
        { db with
            appointments := db.appointments.map (fun a =>
              if a.id == aid then { a with status := "Completed" } else a),
            treatments := db.treatments.map (fun t0 =>
              if t0.id == t.id then
                { t0 with diagnosis := diagnosis, prescription := prescription,
                          medicines := medicines }
              else t0) })
    | none =>
      (Outcome.ok,
        { db with
            appointments := db.appointments.map (fun a =>
              if a.id == aid then { a with status := "Completed" } else a),
            treatments := db.treatments ++
              [{ id := nextId (db.treatments.map (fun t => t.id)),
                 diagnosis := diagnosis, prescription := prescription,
                 medicines := medicines, appointment_id := appt.id }] })

/-- Status of the appointment with the given id, when present. -/
def statusOf (db : DB) (aid : Nat) : Option String :=
  (db.appointments.find? (fun a => a.id == aid)).map (fun a => a.status)

/-- Number of Treatment rows attached to a given appointment id. -/
def treatCount (db : DB) (aid : Nat) : Nat :=
  (db.treatments.filter (fun t => t.appointment_id == aid)).length

/-- Sample store: doctor 1 with a Cancelled appointment occupying a slot. -/
def dbC1 : DB :=
  { admins := [], departments := [{ id := 1, name := "Cardiology" }],
    doctors := [{ id := 1, username := "jane.doe", password_hash := "H",
                  full_name := "Jane Doe", email := none,
                  experience_years := 5, department_id := 1 }],
    patients := [{ id := 1, username := "alice", password_hash := "H",
                   full_name := none, contact := none }],
    appointments := [{ id := 1, appointment_date := ⟨2024, 1, 10⟩,
                       time_slot := "08:00 - 12:00 am", status := "Cancelled",
                       patient_id := 1, doctor_id := 1 }],
    treatments := [], availabilities := [] }

/-- Sample store: doctor 1 with no appointments yet. -/
def dbC7 : DB :=
  { admins := [], departments := [{ id := 1, name := "Cardiology" }],
    doctors := [{ id := 1, username := "jane.doe", password_hash := "H",
                  full_name := "Jane Doe", email := none,
                  experience_years := 5, department_id := 1 }],
    patients := [{ id := 1, username := "alice", password_hash := "H",
                   full_name := none, contact := none }],
    appointments := [], treatments := [], availabilities := [] }

/-- Sample identity store: an admin, a doctor and a patient. -/
def dbC5 : DB :=
  { admins := [{ id := 1, username := "admin", password_hash := "HA" }],
    departments := [{ id := 1, name := "Cardiology" }],
    doctors := [{ id := 1, username := "jane.doe", password_hash := "H",
                  full_name := "Jane Doe", email := none,
                  experience_years := 5, department_id := 1 }],
    patients := [{ id := 1, username := "alice", password_hash := "H",
                   full_name := none, contact := none }],
    appointments := [], treatments := [], availabilities := [] }

/-- Sample directory store: one department and one doctor. -/
def dbC8 : DB :=
  { admins := [], departments := [{ id := 1, name := "Cardiology" }],
    doctors := [{ id := 1, username := "jane.doe", password_hash := "H",
                  full_name := "Jane Doe", email := none,
                  experience_years := 5, department_id := 1 }],
    patients := [], appointments := [], treatments := [], availabilities := [] }

/-- An identity hash function used by witnesses where hashing is opaque. -/
def idHash : String → String := fun s => s

/-- A plain-comparison verifier used by witnesses, pairing with `idHash`. -/
def verifyEq : String → String → Bool := fun h c => h == c

/-- Sample store: appointment 1 of patient 1 with doctor 1 is Cancelled. -/
def dbC2 : DB :=
  { admins := [], departments := [],
    doctors := [{ id := 1, username := "jane.doe", password_hash := "H",
                  full_name := "Jane Doe", email := none,
                  experience_years := 5, department_id := 1 }],
    patients := [{ id := 1, username := "alice", password_hash := "H",
                   full_name := none, contact := none }],
    appointments := [{ id := 1, appointment_date := ⟨2024, 1, 10⟩,
                       time_slot := "08:00 - 12:00 am", status := "Cancelled",
                       patient_id := 1, doctor_id := 1 }],
    treatments := [], availabilities := [] }

/-- Sample store: appointment 1 of patient 1 with doctor 1 is Booked. -/
def dbC3 : DB :=
  { admins := [], departments := [],
    doctors := [{ id := 1, username := "jane.doe", password_hash := "H",
                  full_name := "Jane Doe", email := none,
                  experience_years := 5, department_id := 1 }],
    patients := [{ id := 1, username := "alice", password_hash := "H",
                   full_name := none, contact := none }],
    appointments := [{ id := 1, appointment_date := ⟨2024, 1, 10⟩,
                       time_slot := "08:00 - 12:00 am", status := "Booked",
                       patient_id := 1, doctor_id := 1 }],
    treatments := [], availabilities := [] }

/-- Sample store: appointment 1 is Booked and has no Treatment row yet. -/
def dbC4 : DB :=
  { admins := [], departments := [],
    doctors := [{ id := 1, username := "jane.doe", password_hash := "H",
                  full_name := "Jane Doe", email := none,
                  experience_years := 5, department_id := 1 }],
    patients := [{ id := 1, username := "alice", password_hash := "H",
                   full_name := none, contact := none }],
    appointments := [{ id := 1, appointment_date := ⟨2024, 1, 10⟩,
                       time_slot := "08:00 - 12:00 am", status := "Booked",
                       patient_id := 1, doctor_id := 1 }],
    treatments := [], availabilities := [] }

/-- Sample identity store where a doctor's username collides with the
admin's: doctor 2 also carries the username "admin". -/
def dbC6 : DB :=
  { admins := [{ id := 1, username := "admin", password_hash := "ha" }],
    departments := [],
    doctors := [{ id := 2, username := "admin", password_hash := "hd",
                  full_name := "Ad Min", email := none,
                  experience_years := 1, department_id := 1 }],
    patients := [{ id := 3, username := "alice", password_hash := "hp",
                   full_name := none, contact := none }],
    appointments := [], treatments := [], availabilities := [] }

/-- Sample store for delete-doctor framing: doctor 1 owns availability row
1 and appointment 1; doctor 2 owns availability row 2. -/
def dbC9 : DB :=
  { admins := [], departments := [],
    doctors := [{ id := 1, username := "jane.doe", password_hash := "H",
                  full_name := "Jane Doe", email := none,
                  experience_years := 5, department_id := 1 },
                { id := 2, username := "john.roe", password_hash := "H",
                  full_name := "John Roe", email := none,
                  experience_years := 2, department_id := 1 }],
    patients := [{ id := 1, username := "alice", password_hash := "H",
                   full_name := none, contact := none }],
    appointments := [{ id := 1, appointment_date := ⟨2024, 1, 10⟩,
                       time_slot := "08:00 - 12:00 am", status := "Booked",
                       patient_id := 1, doctor_id := 1 }],
    treatments := [],
    availabilities := [{ id := 1, date := ⟨2024, 1, 10⟩,
                         time_slot := "08:00 - 12:00 am",
                         is_available := true, doctor_id := 1 },
                       { id := 2, date := ⟨2024, 1, 11⟩,
                         time_slot := "08:00 - 12:00 am",
                         is_available := true, doctor_id := 2 }] }

end HospitalMS

namespace HospitalMS

/-- Finding under a predicate commutes with a map that preserves the
predicate. -/
theorem find?_map_pres {α : Type} {p : α → Bool} {f : α → α}
    (hf : ∀ a, p (f a) = p a) (l : List α) :
    (l.map f).find? p = (l.find? p).map f := by
  rw [List.find?_map]
  have hpf : p ∘ f = p := funext hf
  rw [hpf]

/-- Filtering under a predicate-preserving map keeps the filtered length. -/
theorem length_filter_map_pres {α : Type} {p : α → Bool} {f : α → α}
    (hf : ∀ a, p (f a) = p a) (l : List α) :
    ((l.map f).filter p).length = (l.filter p).length := by
  rw [List.filter_map]
  have hpf : p ∘ f = p := funext hf
  rw [hpf, List.length_map]

/-- Setting the status of the appointment matching an id does not change
which rows match that id. -/
theorem statusSet_pres (aid : Nat) (s : String) (a : ApptRow) :
    ((if a.id == aid then { a with status := s } else a).id == aid)
      = (a.id == aid) := by
  cases h : a.id == aid <;> simp [h]

/-- Finding an appointment by id after setting the status of the matching
rows yields the found row with its status replaced. -/
theorem setStatus_find? (l : List ApptRow) (aid : Nat) (s : String)
    (appt : ApptRow) (h : l.find? (fun a => a.id == aid) = some appt) :
    (l.map (fun a => if a.id == aid then { a with status := s } else a)).find?
      (fun a => a.id == aid) = some { appt with status := s } := by
  have hideq : appt.id = aid := by simpa using List.find?_some h
  subst hideq
  rw [find?_map_pres (statusSet_pres appt.id s), h]
  simp

/-- Overwriting the clinical fields of the treatment rows matching an id
does not change which rows belong to a given appointment. -/
theorem treatSet_pres (tid aid : Nat) (d p m : String) (t0 : TreatmentRow) :
    ((if t0.id == tid then
        { t0 with diagnosis := d, prescription := p, medicines := m }
      else t0).appointment_id == aid) = (t0.appointment_id == aid) := by
  cases h : t0.id == tid <;> simp [h]

/-- C10: blacklisting a doctor is extensionally the same operation as
deleting the doctor: identical outcome and identical successor state on
every store and every id — the 404 path, the IntegrityError rollback path
when the doctor owns appointments, and the successful cascade alike. -/
theorem C10_blacklist_equals_delete :
    ∀ (db : DB) (did : Nat), blacklist_doctor_view db did = delete_doctor db did :=
  fun _ _ => rfl

/-- C9 counterexample: in `dbC9` doctor 1 owns appointment 1, so the delete
commit fails with an integrity error (the unit of work nulls the
non-nullable `doctor_id`) and rolls back: the Doctor row is not
hard-deleted, its availability row survives, and no dangling appointment
arises — contrary to the claim's asserted success with dangling rows. -/
theorem C9_counterexample_appointments_guard :
    delete_doctor dbC9 1 = (Outcome.storageFailure, dbC9)
    ∧ (∃ d ∈ (delete_doctor dbC9 1).2.doctors, d.id = 1)
    ∧ (∃ v ∈ (delete_doctor dbC9 1).2.availabilities, v.doctor_id = 1) := by
  decide

/-- C9 amended: when the doctor owns any Appointment row, delete_doctor
fails with a storage failure and the store is unchanged (the Appointment
rows guard the delete); only when the doctor owns no Appointment row does
it succeed, removing exactly the Doctor rows with that id and the doctor's
DoctorAvailability rows and leaving every other table unchanged — so no
dangling appointment doctor_id is ever produced by this operation. -/
theorem C9_delete_doctor_amended (db : DB) (did : Nat) (doc : DoctorRow)
    (hdoc : db.doctors.find? (fun d => d.id == did) = some doc) :
    ((∃ a ∈ db.appointments, a.doctor_id = did) →
      delete_doctor db did = (Outcome.storageFailure, db))
    ∧ ((∀ a ∈ db.appointments, a.doctor_id ≠ did) →
      (delete_doctor db did).1 = Outcome.ok
      ∧ (∀ d : DoctorRow, d ∈ (delete_doctor db did).2.doctors
          ↔ d ∈ db.doctors ∧ d.id ≠ did)
      ∧ (∀ v : AvailabilityRow, v ∈ (delete_doctor db did).2.availabilities
          ↔ v ∈ db.availabilities ∧ v.doctor_id ≠ did)
      ∧ (delete_doctor db did).2.appointments = db.appointments
      ∧ (delete_doctor db did).2.admins = db.admins
      ∧ (delete_doctor db did).2.departments = db.departments
      ∧ (delete_doctor db did).2.patients = db.patients
      ∧ (delete_doctor db did).2.treatments = db.treatments) := by
  constructor
  · intro hex
    obtain ⟨a, ha, hdid⟩ := hex
    unfold delete_doctor
    rw [hdoc]
    dsimp only
    have hany : (db.appointments.any fun a => a.doctor_id == did) = true := by
      rw [List.any_eq_true]
      exact ⟨a, ha, by simp [hdid]⟩
    rw [hany]
    simp
  · intro hno
    have hany : (db.appointments.any fun a => a.doctor_id == did) = false := by
      rw [List.any_eq_false]
      intro a ha hcon
      exact hno a ha (by simpa using hcon)
    have hred : delete_doctor db did = (Outcome.ok,
        { db with
            doctors := db.doctors.filter (fun d => d.id != did),
            availabilities :=
              db.availabilities.filter (fun a => a.doctor_id != did) }) := by
      unfold delete_doctor
      rw [hdoc]
      dsimp only
      rw [hany]
      simp
    rw [hred]
    refine ⟨rfl, ?_, ?_, rfl, rfl, rfl, rfl, rfl⟩
    · intro d
      simp [List.mem_filter]
    · intro v
      simp [List.mem_filter]

/-- C1: when the doctor exists and some Appointment row — of any status —
already carries the same (doctor, parsed date, slot) triple, booking fails
with a conflict and the store is unchanged. -/
theorem C1_book_conflicts_on_existing_slot (db : DB) (uid did : Nat)
    (ds slot : String) (doc : DoctorRow)
    (hdoc : db.doctors.find? (fun d => d.id == did) = some doc)
    (hex : ∃ a ∈ db.appointments, a.doctor_id = did
        ∧ parseDate ds = some a.appointment_date ∧ a.time_slot = slot) :
    book_appointment db uid did ds slot = (Outcome.conflict, db) := by
  obtain ⟨a, ha, hdid, hdate, hslot⟩ := hex
  have hid : doc.id = did := by simpa using List.find?_some hdoc
  unfold book_appointment
  rw [hdoc, hdate]
  have hany : (db.appointments.any fun x =>
      x.doctor_id == doc.id && x.appointment_date == a.appointment_date
        && x.time_slot == slot) = true := by
    rw [List.any_eq_true]
    exact ⟨a, ha, by simp [hid, hdid, hslot]⟩
  simp [hany]

/-- C1 witness: a Cancelled appointment of doctor 1 on 2024-01-10 blocks
rebooking of that very slot. -/
theorem C1_witness :
    book_appointment dbC1 1 1 "2024-01-10" "08:00 - 12:00 am"
      = (Outcome.conflict, dbC1) :=
  C1_book_conflicts_on_existing_slot dbC1 1 1 "2024-01-10" "08:00 - 12:00 am"
    { id := 1, username := "jane.doe", password_hash := "H",
      full_name := "Jane Doe", email := none,
      experience_years := 5, department_id := 1 }
    (by decide) (by decide)

/-- C7: when the doctor exists, booking with an unparseable date string
fails as invalid input and creates nothing; and when the date parses and no
Appointment row occupies the (doctor, date, slot) triple, booking succeeds
and appends exactly one Appointment carrying the given doctor id, parsed
date and slot, with status "Booked". -/
theorem C7_book_validates_and_creates (db : DB) (uid did : Nat)
    (ds slot : String) (doc : DoctorRow)
    (hdoc : db.doctors.find? (fun d => d.id == did) = some doc) :
    (parseDate ds = none →
      book_appointment db uid did ds slot = (Outcome.invalidInput, db))
    ∧ (∀ d : Date, parseDate ds = some d →
        (∀ a ∈ db.appointments,
          ¬(a.doctor_id = did ∧ a.appointment_date = d ∧ a.time_slot = slot)) →
        book_appointment db uid did ds slot = (Outcome.ok,
          { db with appointments := db.appointments ++
              [{ id := nextId (db.appointments.map (fun a => a.id)),
                 appointment_date := d, time_slot := slot, status := "Booked",
                 patient_id := uid, doctor_id := did }] })) := by
  have hid : doc.id = did := by simpa using List.find?_some hdoc
  constructor
  · intro hnone
    unfold book_appointment
    rw [hdoc, hnone]
  · intro d hsome hno
    unfold book_appointment
    rw [hdoc, hsome]
    have hany : (db.appointments.any fun x =>
        x.doctor_id == doc.id && x.appointment_date == d
          && x.time_slot == slot) = false := by
      rw [List.any_eq_false]
      intro x hx hcon
      simp only [Bool.and_eq_true, beq_iff_eq] at hcon
      obtain ⟨⟨h1, h2⟩, h3⟩ := hcon
      exact hno x hx ⟨hid ▸ h1, h2, h3⟩
    dsimp only
    rw [hany, hid]
    simp

/-- C7 witness: an unparseable date is rejected, and a fresh slot for
doctor 1 books successfully with status "Booked". -/
theorem C7_witness :
    book_appointment dbC7 1 1 "2024-02-30" "08:00 - 12:00 am"
      = (Outcome.invalidInput, dbC7)
    ∧ book_appointment dbC7 1 1 "2024-01-10" "08:00 - 12:00 am"
      = (Outcome.ok,
        { dbC7 with appointments :=
            [{ id := 1, appointment_date := ⟨2024, 1, 10⟩,
               time_slot := "08:00 - 12:00 am", status := "Booked",
               patient_id := 1, doctor_id := 1 }] }) :=
  ⟨(C7_book_validates_and_creates dbC7 1 1 "2024-02-30" "08:00 - 12:00 am"
      { id := 1, username := "jane.doe", password_hash := "H",
        full_name := "Jane Doe", email := none,
        experience_years := 5, department_id := 1 } (by decide)).1 (by decide),
   (C7_book_validates_and_creates dbC7 1 1 "2024-01-10" "08:00 - 12:00 am"
      { id := 1, username := "jane.doe", password_hash := "H",
        full_name := "Jane Doe", email := none,
        experience_years := 5, department_id := 1 } (by decide)).2
     ⟨2024, 1, 10⟩ (by decide) (by decide)⟩

/-- C5: patient registration fails with a conflict and changes nothing
whenever the username already appears in the Admin, Doctor or Patient
table; when it appears in none of them, registration succeeds and appends
exactly one Patient row with that username, leaving all other tables
unchanged. -/
theorem C5_register_uniqueness_across_tables (db : DB)
    (hash : String → String) (u p : String) :
    (((∃ a ∈ db.admins, a.username = u) ∨ (∃ d ∈ db.doctors, d.username = u)
        ∨ (∃ q ∈ db.patients, q.username = u)) →
      register db hash u p = (Outcome.conflict, db))
    ∧ ((∀ a ∈ db.admins, a.username ≠ u) → (∀ d ∈ db.doctors, d.username ≠ u) →
        (∀ q ∈ db.patients, q.username ≠ u) →
        register db hash u p = (Outcome.ok,
          { db with patients := db.patients ++
              [{ id := nextId (db.patients.map (fun q => q.id)),
                 username := u, password_hash := hash p,
                 full_name := none, contact := none }] })) := by
  constructor
  · intro hconf
    unfold register
    have hcond : (db.patients.any (fun q => q.username == u)
        || db.doctors.any (fun d => d.username == u)
        || db.admins.any (fun a => a.username == u)) = true := by
      rcases hconf with ⟨a, ha, hu⟩ | ⟨d, hd, hu⟩ | ⟨q, hq, hu⟩ <;>
        simp only [Bool.or_eq_true, List.any_eq_true]
      · exact Or.inr ⟨a, ha, by simp [hu]⟩
      · exact Or.inl (Or.inr ⟨d, hd, by simp [hu]⟩)
      · exact Or.inl (Or.inl ⟨q, hq, by simp [hu]⟩)
    rw [hcond]
    simp
  · intro hA hD hP
    unfold register
    have hcond : (db.patients.any (fun q => q.username == u)
        || db.doctors.any (fun d => d.username == u)
        || db.admins.any (fun a => a.username == u)) = false := by
      simp only [Bool.or_eq_false_iff, List.any_eq_false]
      refine ⟨⟨?_, ?_⟩, ?_⟩
      · intro q hq; simpa using hP q hq
      · intro d hd; simpa using hD d hd
      · intro a ha; simpa using hA a ha
    rw [hcond]
    simp

/-- C5 witness: the username "jane.doe" of an existing doctor blocks
patient registration, while the fresh username "bob" registers and appends
one Patient row. -/
theorem C5_witness :
    register dbC5 idHash "jane.doe" "pw" = (Outcome.conflict, dbC5)
    ∧ register dbC5 idHash "bob" "pw" = (Outcome.ok,
        { dbC5 with patients := dbC5.patients ++
            [{ id := 2, username := "bob", password_hash := "pw",
               full_name := none, contact := none }] }) :=
  ⟨(C5_register_uniqueness_across_tables dbC5 idHash "jane.doe" "pw").1
      (Or.inr (Or.inl (by decide))),
   (C5_register_uniqueness_across_tables dbC5 idHash "bob" "pw").2
      (by decide) (by decide) (by decide)⟩

/-- C8: create_doctor derives the username by lowercasing the full name and
turning spaces into dots; an existing Doctor row with that username makes
it fail with a conflict and change nothing; otherwise a matching Department
is reused (or a new one of exactly the specialization's name is appended)
and the appended Doctor row carries the derived username and the hash of
the fixed default password "doctor123". -/
theorem C8_create_doctor_spec (db : DB) (hash : String → String)
    (fullname spec : String) (exp : Nat) :
    ((∃ d ∈ db.doctors, d.username = deriveUsername fullname) →
      create_doctor db hash fullname spec exp = (Outcome.conflict, db))
    ∧ (∀ dept : DepartmentRow,
        (∀ d ∈ db.doctors, d.username ≠ deriveUsername fullname) →
        db.departments.find? (fun dp => dp.name == spec) = some dept →
        create_doctor db hash fullname spec exp = (Outcome.ok,
          { db with doctors := db.doctors ++
              [{ id := nextId (db.doctors.map (fun d => d.id)),
                 username := deriveUsername fullname,
                 password_hash := hash "doctor123", full_name := fullname,
                 email := none, experience_years := exp,
                 department_id := dept.id }] }))
    ∧ ((∀ d ∈ db.doctors, d.username ≠ deriveUsername fullname) →
        db.departments.find? (fun dp => dp.name == spec) = none →
        create_doctor db hash fullname spec exp = (Outcome.ok,
          { db with
              departments := db.departments ++
                [{ id := nextId (db.departments.map (fun dp => dp.id)),
                   name := spec }],
              doctors := db.doctors ++
                [{ id := nextId (db.doctors.map (fun d => d.id)),
                   username := deriveUsername fullname,
                   password_hash := hash "doctor123", full_name := fullname,
                   email := none, experience_years := exp,
                   department_id :=
                     nextId (db.departments.map (fun dp => dp.id)) }] })) := by
  refine ⟨?_, ?_, ?_⟩
  · intro hconf
    obtain ⟨d, hd, hu⟩ := hconf
    unfold create_doctor
    have hany : (db.doctors.any fun d0 =>
        d0.username == deriveUsername fullname) = true := by
      rw [List.any_eq_true]
      exact ⟨d, hd, by simp [hu]⟩
    simp [hany]
  · intro dept hno hdept
    unfold create_doctor
    have hany : (db.doctors.any fun d0 =>
        d0.username == deriveUsername fullname) = false := by
      rw [List.any_eq_false]
      intro d0 hd0 hcon
      exact hno d0 hd0 (by simpa using hcon)
    rw [hany, hdept]
    simp
  · intro hno hdept
    unfold create_doctor
    have hany : (db.doctors.any fun d0 =>
        d0.username == deriveUsername fullname) = false := by
      rw [List.any_eq_false]
      intro d0 hd0 hcon
      exact hno d0 hd0 (by simpa using hcon)
    rw [hany, hdept]
    simp

/-- C8 witness: creating "Jane Doe" again conflicts; "John Roe" in the
existing "Cardiology" department reuses it; "Ann Lee" in "Oncology"
creates the department. -/
theorem C8_witness :
    create_doctor dbC8 idHash "Jane Doe" "Cardiology" 3
      = (Outcome.conflict, dbC8)
    ∧ create_doctor dbC8 idHash "John Roe" "Cardiology" 3
      = (Outcome.ok,
        { dbC8 with doctors := dbC8.doctors ++
            [{ id := 2, username := "john.roe", password_hash := "doctor123",
               full_name := "John Roe", email := none,
               experience_years := 3, department_id := 1 }] })
    ∧ create_doctor dbC8 idHash "Ann Lee" "Oncology" 2
      = (Outcome.ok,
        { dbC8 with
            departments := dbC8.departments ++ [{ id := 2, name := "Oncology" }],
            doctors := dbC8.doctors ++
              [{ id := 2, username := "ann.lee", password_hash := "doctor123",
                 full_name := "Ann Lee", email := none,
                 experience_years := 2, department_id := 2 }] }) := by
  refine ⟨?_, ?_, ?_⟩
  · exact (C8_create_doctor_spec dbC8 idHash "Jane Doe" "Cardiology" 3).1
      (by decide)
  · have h := (C8_create_doctor_spec dbC8 idHash "John Roe" "Cardiology" 3).2.1
      { id := 1, name := "Cardiology" } (by decide) (by decide)
    simpa using h
  · have h := (C8_create_doctor_spec dbC8 idHash "Ann Lee" "Oncology" 2).2.2
      (by decide) (by decide)
    simpa using h

/-- C9 witness for the amended statement: deleting doctor 1 (who owns
appointment 1) fails and changes nothing, while deleting doctor 2 (no
appointments) succeeds, dropping the doctor row and availability row 2
and leaving every other table unchanged. -/
theorem C9_witness :
    delete_doctor dbC9 1 = (Outcome.storageFailure, dbC9)
    ∧ ((delete_doctor dbC9 2).1 = Outcome.ok
      ∧ (∀ d : DoctorRow, d ∈ (delete_doctor dbC9 2).2.doctors
          ↔ d ∈ dbC9.doctors ∧ d.id ≠ 2)
      ∧ (∀ v : AvailabilityRow, v ∈ (delete_doctor dbC9 2).2.availabilities
          ↔ v ∈ dbC9.availabilities ∧ v.doctor_id ≠ 2)
      ∧ (delete_doctor dbC9 2).2.appointments = dbC9.appointments
      ∧ (delete_doctor dbC9 2).2.admins = dbC9.admins
      ∧ (delete_doctor dbC9 2).2.departments = dbC9.departments
      ∧ (delete_doctor dbC9 2).2.patients = dbC9.patients
      ∧ (delete_doctor dbC9 2).2.treatments = dbC9.treatments) :=
  ⟨(C9_delete_doctor_amended dbC9 1
      { id := 1, username := "jane.doe", password_hash := "H",
        full_name := "Jane Doe", email := none,
        experience_years := 5, department_id := 1 } (by decide)).1 (by decide),
   (C9_delete_doctor_amended dbC9 2
      { id := 2, username := "john.roe", password_hash := "H",
        full_name := "John Roe", email := none,
        experience_years := 2, department_id := 1 } (by decide)).2 (by decide)⟩

/-- C2 counterexample: in `dbC2` appointment 1 is Cancelled, yet the doctor
appointment action "complete" moves it to Completed — so Cancelled is not a
terminal status under every operation, contrary to the claim. -/
theorem C2_counterexample_cancelled_to_completed :
    statusOf dbC2 1 = some "Cancelled"
    ∧ statusOf (doctor_appointment_action dbC2 1 "complete").2 1
        = some "Completed" := by
  decide

/-- C2 amended: Completed and Cancelled are terminal only under the patient
appointment action, which leaves the whole store unchanged on them; the
doctor appointment action overrides any prior status with "Completed" or
"Cancelled", and record-treatment forces "Completed" from any status. -/
theorem C2_terminality_amended (db : DB) (uid aid : Nat) (act : String)
    (d p m : String) (appt : ApptRow)
    (h : db.appointments.find? (fun a => a.id == aid) = some appt)
    (hterm : appt.status = "Completed" ∨ appt.status = "Cancelled") :
    (patient_appointment_action db uid aid act).2 = db
    ∧ statusOf (doctor_appointment_action db aid "complete").2 aid
        = some "Completed"
    ∧ statusOf (doctor_appointment_action db aid "cancel").2 aid
        = some "Cancelled"
    ∧ statusOf (update_history db aid d p m).2 aid = some "Completed" := by
  have hbook : (appt.status == "Booked") = false := by
    rcases hterm with h1 | h1 <;> simp [h1]
  refine ⟨?_, ?_, ?_, ?_⟩
  · unfold patient_appointment_action
    rw [h]
    dsimp only
    cases hown : appt.patient_id != uid
    · simp [hbook]
    · simp
  · unfold doctor_appointment_action statusOf
    rw [h]
    dsimp only
    rw [if_pos (show (("complete" == "complete") = true) from rfl)]
    dsimp only
    rw [setStatus_find? db.appointments aid "Completed" appt h]
    rfl
  · unfold doctor_appointment_action statusOf
    rw [h]
    dsimp only
    rw [if_neg (show ¬(("cancel" == "complete") = true) from by decide),
        if_pos (show (("cancel" == "cancel") = true) from rfl)]
    dsimp only
    rw [setStatus_find? db.appointments aid "Cancelled" appt h]
    rfl
  · unfold update_history statusOf
    rw [h]
    dsimp only
    rcases ht : db.treatments.find? (fun t => t.appointment_id == appt.id)
        with _ | t
    · rw [ht]
      dsimp only
      rw [setStatus_find? db.appointments aid "Completed" appt h]
      rfl
    · rw [ht]
      dsimp only
      rw [setStatus_find? db.appointments aid "Completed" appt h]
      rfl

/-- C2 witness for the amended statement, exercised on the Cancelled
appointment of `dbC2`. -/
theorem C2_witness :
    (patient_appointment_action dbC2 1 1 "cancel").2 = dbC2
    ∧ statusOf (doctor_appointment_action dbC2 1 "complete").2 1
        = some "Completed"
    ∧ statusOf (doctor_appointment_action dbC2 1 "cancel").2 1
        = some "Cancelled"
    ∧ statusOf (update_history dbC2 1 "Flu" "Rest" "None").2 1
        = some "Completed" :=
  C2_terminality_amended dbC2 1 1 "cancel" "Flu" "Rest" "None"
    { id := 1, appointment_date := ⟨2024, 1, 10⟩,
      time_slot := "08:00 - 12:00 am", status := "Cancelled",
      patient_id := 1, doctor_id := 1 }
    (by decide) (Or.inr (by decide))

/-- C3: the patient cancel action moves the appointment to Cancelled
exactly when the caller owns it and it is Booked; in every other case the
store is unchanged and the call is denied; and a second cancel is always a
no-op on the state. -/
theorem C3_cancel_iff_owner_booked (db : DB) (uid aid : Nat) (appt : ApptRow)
    (h : db.appointments.find? (fun a => a.id == aid) = some appt) :
    ((appt.patient_id = uid ∧ appt.status = "Booked") →
      (patient_appointment_action db uid aid "cancel").1 = Outcome.ok
      ∧ statusOf (patient_appointment_action db uid aid "cancel").2 aid
          = some "Cancelled")
    ∧ (¬(appt.patient_id = uid ∧ appt.status = "Booked") →
      patient_appointment_action db uid aid "cancel" = (Outcome.denied, db))
    ∧ (patient_appointment_action
        (patient_appointment_action db uid aid "cancel").2 uid aid "cancel").2
      = (patient_appointment_action db uid aid "cancel").2 := by
  by_cases hcase : appt.patient_id = uid ∧ appt.status = "Booked"
  · obtain ⟨hown, hbook⟩ := hcase
    have hfind2 := setStatus_find? db.appointments aid "Cancelled" appt h
    have hact : patient_appointment_action db uid aid "cancel"
        = (Outcome.ok,
          { db with appointments := db.appointments.map (fun a =>
              if a.id == aid then { a with status := "Cancelled" } else a) }) := by
      unfold patient_appointment_action
      rw [h]
      dsimp only
      simp [hown, hbook]
    have hact2 : patient_appointment_action
        { db with appointments := db.appointments.map (fun a =>
            if a.id == aid then { a with status := "Cancelled" } else a) }
          uid aid "cancel"
        = (Outcome.denied,
          { db with appointments := db.appointments.map (fun a =>
              if a.id == aid then { a with status := "Cancelled" } else a) }) := by
      unfold patient_appointment_action
      dsimp only
      rw [hfind2]
      dsimp only
      simp [hown]
    refine ⟨fun _ => ⟨by rw [hact], ?_⟩, fun hc => absurd ⟨hown, hbook⟩ hc, ?_⟩
    · rw [hact]
      unfold statusOf
      dsimp only
      rw [hfind2]
      rfl
    · rw [hact]
      dsimp only
      rw [hact2]
  · have hact : patient_appointment_action db uid aid "cancel"
        = (Outcome.denied, db) := by
      unfold patient_appointment_action
      rw [h]
      dsimp only
      by_cases hown : appt.patient_id = uid
      · have hbook : appt.status ≠ "Booked" := fun hb => hcase ⟨hown, hb⟩
        simp [hown, hbook]
      · simp [hown]
    refine ⟨fun hpos => absurd hpos hcase, fun _ => hact, ?_⟩
    rw [hact]
    dsimp only
    rw [hact]

/-- C3 witness: on the Booked appointment of `dbC3`, patient 1 cancels
successfully, and the cancel is not repeatable. -/
theorem C3_witness :
    ((({ id := 1, appointment_date := ⟨2024, 1, 10⟩,
         time_slot := "08:00 - 12:00 am", status := "Booked",
         patient_id := 1, doctor_id := 1 } : ApptRow).patient_id = 1
      ∧ ({ id := 1, appointment_date := ⟨2024, 1, 10⟩,
           time_slot := "08:00 - 12:00 am", status := "Booked",
           patient_id := 1, doctor_id := 1 } : ApptRow).status = "Booked") →
      (patient_appointment_action dbC3 1 1 "cancel").1 = Outcome.ok
      ∧ statusOf (patient_appointment_action dbC3 1 1 "cancel").2 1
          = some "Cancelled")
    ∧ (¬(({ id := 1, appointment_date := ⟨2024, 1, 10⟩,
            time_slot := "08:00 - 12:00 am", status := "Booked",
            patient_id := 1, doctor_id := 1 } : ApptRow).patient_id = 1
        ∧ ({ id := 1, appointment_date := ⟨2024, 1, 10⟩,
             time_slot := "08:00 - 12:00 am", status := "Booked",
             patient_id := 1, doctor_id := 1 } : ApptRow).status = "Booked") →
      patient_appointment_action dbC3 1 1 "cancel" = (Outcome.denied, dbC3))
    ∧ (patient_appointment_action
        (patient_appointment_action dbC3 1 1 "cancel").2 1 1 "cancel").2
      = (patient_appointment_action dbC3 1 1 "cancel").2 :=
  C3_cancel_iff_owner_booked dbC3 1 1
    { id := 1, appointment_date := ⟨2024, 1, 10⟩,
      time_slot := "08:00 - 12:00 am", status := "Booked",
      patient_id := 1, doctor_id := 1 } (by decide)

/-- One record-treatment call on an existing appointment: it succeeds, the
appointment is findable afterwards with status "Completed", and the number
of Treatment rows for the appointment becomes the old count or one,
whichever is larger. -/
theorem update_history_step (db : DB) (aid : Nat) (appt : ApptRow)
    (d p m : String)
    (h : db.appointments.find? (fun a => a.id == aid) = some appt) :
    (update_history db aid d p m).1 = Outcome.ok
    ∧ (update_history db aid d p m).2.appointments.find? (fun a => a.id == aid)
        = some { appt with status := "Completed" }
    ∧ treatCount (update_history db aid d p m).2 aid
        = max (treatCount db aid) 1 := by
  have hidaeq : appt.id = aid := by simpa using List.find?_some h
  unfold update_history
  rw [h]
  dsimp only
  rcases ht : db.treatments.find? (fun t => t.appointment_id == appt.id)
      with _ | t
  · rw [ht]
    dsimp only
    have ht' := ht
    rw [hidaeq] at ht'
    have hzero : treatCount db aid = 0 := by
      unfold treatCount
      rw [List.filter_eq_nil_iff.mpr (List.find?_eq_none.mp ht')]
      rfl
    refine ⟨rfl, setStatus_find? db.appointments aid "Completed" appt h, ?_⟩
    unfold treatCount at hzero ⊢
    dsimp only
    rw [List.filter_append, List.length_append, hzero]
    simp [hidaeq]
  · rw [ht]
    dsimp only
    have ht' := ht
    rw [hidaeq] at ht'
    have hone : 1 ≤ treatCount db aid := by
      unfold treatCount
      have hmem : t ∈ db.treatments := List.mem_of_find?_eq_some ht'
      have hpt : (t.appointment_id == aid) = true := by
        simpa using List.find?_some ht'
      have hmf : t ∈ db.treatments.filter (fun t0 => t0.appointment_id == aid) :=
        List.mem_filter.mpr ⟨hmem, hpt⟩
      exact List.length_pos.mpr (fun hnil => by simp [hnil] at hmf)
    refine ⟨rfl, setStatus_find? db.appointments aid "Completed" appt h, ?_⟩
    unfold treatCount
    dsimp only
    rw [length_filter_map_pres (treatSet_pres t.id aid d p m) db.treatments]
    exact (Nat.max_eq_left hone).symm

/-- C4: record-treatment is get-or-create on the single Treatment row of an
appointment: the first call leaves exactly one row for the appointment id,
a second call still leaves exactly one row (it updates, never duplicates),
and after either call the appointment's status is "Completed". -/
theorem C4_record_treatment_get_or_create (db : DB) (aid : Nat)
    (appt : ApptRow) (d1 p1 m1 d2 p2 m2 : String)
    (h : db.appointments.find? (fun a => a.id == aid) = some appt)
    (hcount : treatCount db aid ≤ 1) :
    (update_history db aid d1 p1 m1).1 = Outcome.ok
    ∧ treatCount (update_history db aid d1 p1 m1).2 aid = 1
    ∧ statusOf (update_history db aid d1 p1 m1).2 aid = some "Completed"
    ∧ (update_history (update_history db aid d1 p1 m1).2 aid d2 p2 m2).1
        = Outcome.ok
    ∧ treatCount
        (update_history (update_history db aid d1 p1 m1).2 aid d2 p2 m2).2 aid
        = 1
    ∧ statusOf
        (update_history (update_history db aid d1 p1 m1).2 aid d2 p2 m2).2 aid
        = some "Completed" := by
  obtain ⟨h1ok, h1find, h1cnt⟩ := update_history_step db aid appt d1 p1 m1 h
  have hc1 : treatCount (update_history db aid d1 p1 m1).2 aid = 1 := by
    rw [h1cnt]
    omega
  obtain ⟨h2ok, h2find, h2cnt⟩ := update_history_step
    (update_history db aid d1 p1 m1).2 aid { appt with status := "Completed" }
    d2 p2 m2 h1find
  refine ⟨h1ok, hc1, ?_, h2ok, ?_, ?_⟩
  · unfold statusOf
    rw [h1find]
    rfl
  · rw [h2cnt, hc1]
    decide
  · unfold statusOf
    rw [h2find]
    rfl

/-- C4 witness: recording a treatment twice on the Booked appointment of
`dbC4` yields one Treatment row after each call and status "Completed". -/
theorem C4_witness :
    (update_history dbC4 1 "Flu" "Rest" "Syrup").1 = Outcome.ok
    ∧ treatCount (update_history dbC4 1 "Flu" "Rest" "Syrup").2 1 = 1
    ∧ statusOf (update_history dbC4 1 "Flu" "Rest" "Syrup").2 1
        = some "Completed"
    ∧ (update_history (update_history dbC4 1 "Flu" "Rest" "Syrup").2 1
        "Cold" "Fluids" "Tablet").1 = Outcome.ok
    ∧ treatCount (update_history (update_history dbC4 1 "Flu" "Rest" "Syrup").2
        1 "Cold" "Fluids" "Tablet").2 1 = 1
    ∧ statusOf (update_history (update_history dbC4 1 "Flu" "Rest" "Syrup").2
        1 "Cold" "Fluids" "Tablet").2 1 = some "Completed" :=
  C4_record_treatment_get_or_create dbC4 1
    { id := 1, appointment_date := ⟨2024, 1, 10⟩,
      time_slot := "08:00 - 12:00 am", status := "Booked",
      patient_id := 1, doctor_id := 1 }
    "Flu" "Rest" "Syrup" "Cold" "Fluids" "Tablet" (by decide) (by decide)

/-- When usernames are distinct within a table, finding a row that matches
the username and verifies the password is the same as finding the row by
username alone and then testing its password. -/
theorem find?_and_of_nodup {α : Type} (key hsh : α → String)
    (verify : String → String → Bool) (u p : String) (l : List α)
    (hnd : (l.map key).Nodup) :
    l.find? (fun a => key a == u && verify (hsh a) p)
      = match l.find? (fun a => key a == u) with
        | some a => if verify (hsh a) p then some a else none
        | none => none := by
  induction l with
  | nil => rfl
  | cons a t ih =>
    rw [List.map_cons, List.nodup_cons] at hnd
    obtain ⟨hna, hnt⟩ := hnd
    cases hk : (key a == u) with
    | true =>
      have hkeq : key a = u := by simpa using hk
      cases hv : verify (hsh a) p with
      | true =>
        rw [List.find?_cons_of_pos (p := fun x => key x == u && verify (hsh x) p)
              t (by simp [hk, hv]),
            List.find?_cons_of_pos (p := fun x => key x == u) t hk]
        simp [hv]
      | false =>
        rw [List.find?_cons_of_neg (p := fun x => key x == u && verify (hsh x) p)
              t (by simp [hk, hv]),
            List.find?_cons_of_pos (p := fun x => key x == u) t hk]
        dsimp only
        rw [hv]
        have hnone : t.find? (fun x => key x == u && verify (hsh x) p)
            = none := by
          rw [List.find?_eq_none]
          intro x hx hcomb
          simp only [Bool.and_eq_true, beq_iff_eq] at hcomb
          exact hna (hkeq ▸ hcomb.1 ▸ List.mem_map_of_mem key hx)
        rw [hnone]
        simp
    | false =>
      rw [List.find?_cons_of_neg (p := fun x => key x == u && verify (hsh x) p)
            t (by simp [hk]),
          List.find?_cons_of_neg (p := fun x => key x == u) t (by simp [hk])]
      exact ih hnt

/-- One login probe of a table equals mapping the result constructor over
the verified-row search, provided usernames are unique in the table. -/
theorem checkTable_spec {α : Type} (rows : List α) (key hsh : α → String)
    (mk : α → Nat × String) (verify : String → String → Bool) (u p : String)
    (hnd : (rows.map key).Nodup) :
    checkTable rows key hsh mk verify u p
      = (rows.find? (fun a => key a == u && verify (hsh a) p)).map mk := by
  unfold checkTable
  rw [find?_and_of_nodup key hsh verify u p rows hnd]
  rcases hf : rows.find? (fun a => key a == u) with _ | a
  · rfl
  · dsimp only
    cases hv : verify (hsh a) p <;> simp [hv]

/-- C6: when each identity table has pairwise-distinct usernames (the
schema's unique constraints), the login flow equals the spec's
`authenticate`: the first row in Admin-Doctor-Patient priority order whose
username matches and whose password hash verifies wins, and login fails
exactly when no table yields a verified match. -/
theorem C6_login_priority_order (db : DB) (verify : String → String → Bool)
    (u p : String)
    (ha : (db.admins.map (fun a => a.username)).Nodup)
    (hd : (db.doctors.map (fun d => d.username)).Nodup)
    (hp : (db.patients.map (fun q => q.username)).Nodup) :
    login db verify u p = authSpec db verify u p := by
  unfold login authSpec roleRows
  rw [checkTable_spec db.admins _ _ _ verify u p ha,
      checkTable_spec db.doctors _ _ _ verify u p hd,
      checkTable_spec db.patients _ _ _ verify u p hp]
  rw [List.find?_append, List.find?_append]
  have hA' : (db.admins.map
        (fun a => (a.id, "admin", a.username, a.password_hash))).find?
        (fun r => r.2.2.1 == u && verify r.2.2.2 p)
      = (db.admins.find?
          (fun a => a.username == u && verify a.password_hash p)).map
          (fun a => (a.id, "admin", a.username, a.password_hash)) := by
    rw [List.find?_map]
    rfl
  have hD' : (db.doctors.map
        (fun d => (d.id, "doctor", d.username, d.password_hash))).find?
        (fun r => r.2.2.1 == u && verify r.2.2.2 p)
      = (db.doctors.find?
          (fun d => d.username == u && verify d.password_hash p)).map
          (fun d => (d.id, "doctor", d.username, d.password_hash)) := by
    rw [List.find?_map]
    rfl
  have hP' : (db.patients.map
        (fun q => (q.id, "patient", q.username, q.password_hash))).find?
        (fun r => r.2.2.1 == u && verify r.2.2.2 p)
      = (db.patients.find?
          (fun q => q.username == u && verify q.password_hash p)).map
          (fun q => (q.id, "patient", q.username, q.password_hash)) := by
    rw [List.find?_map]
    rfl
  rw [hA', hD', hP']
  rcases hA : db.admins.find?
      (fun a => a.username == u && verify a.password_hash p) with _ | a
  · rcases hD : db.doctors.find?
        (fun d => d.username == u && verify d.password_hash p) with _ | d
    · rcases hP : db.patients.find?
          (fun q => q.username == u && verify q.password_hash p) with _ | q
      · simp [hA, hD, hP, Option.or]
      · simp [hA, hD, hP, Option.or]
    · simp [hA, hD, Option.or]
  · simp [hA, Option.or]

/-- C6 witness: in `dbC6` the username "admin" exists in both the Admin and
the Doctor table; with the doctor's password the admin probe fails to
verify and login falls through to the doctor, exactly as the spec-order
search prescribes. -/
theorem C6_witness :
    login dbC6 verifyEq "admin" "hd" = authSpec dbC6 verifyEq "admin" "hd"
    ∧ login dbC6 verifyEq "admin" "hd" = some (2, "doctor") :=
  ⟨C6_login_priority_order dbC6 verifyEq "admin" "hd"
      (by decide) (by decide) (by decide),
   by decide⟩

end HospitalMS
